import Mathlib

/-!
Verification development for the job-mastra-report repository.

The repository has two TypeScript source files:
* src/mastra/tools/github/github-auth-tool.ts — the credential resolver
  (githubAuthTool.execute and the helper getGitHubToken), and
* src/mastra/tools/github/fetch-pr-tool.ts — the pull-request fetcher
  (fetchPrTool.execute).

Both are straight-line async functions whose only effects are: running the
GitHub CLI with execSync (which either returns stdout as a string or throws),
reading the environment variable GITHUB_TOKEN, and one HTTP POST.  We embed
each function as a pure Lean function over an explicit "world" record that
holds the outcome of every external interaction: the result of each execSync
call is an Except (error when the subprocess throws, ok with the captured
stdout otherwise), the environment variable is an Option String, and the HTTP
call is an Except of an HttpResponse (error when fetch itself rejects).
console.log / console.warn calls are pure logging and are not modelled.
-/

deriving instance DecidableEq for Except

/-- The source of the resolved token: the string enum of github-auth-tool.ts,
values 'environment' and 'github-cli'. -/
inductive TokenSource
  | environment
  | githubCli
deriving DecidableEq, Repr

/-- GitHubAuthResponse of github-auth-tool.ts: the record returned by
githubAuthTool.execute. -/
structure GitHubAuthResponse where
  token : String
  username : String
  scopes : List String
  source : TokenSource
deriving DecidableEq, Repr

/-- The external world seen by githubAuthTool.execute: the outcome of
execSync "gh auth token", the value of process.env.GITHUB_TOKEN (none when
unset), and the outcome of execSync "gh auth status". -/
structure AuthWorld where
  cliToken : Except String String
  envToken : Option String
  cliStatus : Except String String
deriving DecidableEq, Repr

/-- A word character of the JavaScript regex class \w: ASCII letters, digits
and underscore. -/
def isWordChar (c : Char) : Bool :=
  c.isAlphanum || c = '_'

/-- The maximal leading run of word characters (the greedy match of \w+ at the
current position). -/
def takeWord : List Char → List Char
  | [] => []
  | c :: cs => if isWordChar c then c :: takeWord cs else []

/-- Whether the first list is a prefix of the second (character lists). -/
def startsWithL : List Char → List Char → Bool
  | [], _ => true
  | _ :: _, [] => false
  | p :: ps, c :: cs => p == c && startsWithL ps cs

/-- JavaScript String.prototype.trim for the character set that occurs in this
repository's data: strips leading and trailing ASCII whitespace (space, tab,
newline, carriage return, vertical tab, form feed). -/
def jsWhitespace (c : Char) : Bool :=
  c = ' ' || c = '\t' || c = '\n' || c = '\r' || c = Char.ofNat 11 || c = Char.ofNat 12

/-- See jsWhitespace: models the .trim() calls of both source files. -/
def jsTrim (s : String) : String :=
  String.mk (((s.toList.dropWhile jsWhitespace).reverse.dropWhile jsWhitespace).reverse)

/-- The pattern before the captured user name in the regex
 /account (\w+)/ of github-auth-tool.ts line 80. -/
def accountMarker : List Char := "account ".toList

/-- First match of the regex /account (\w+)/ — github-auth-tool.ts line 80:
scan left to right for the literal marker followed by at least one word
character; the capture is the maximal word-character run after the marker. -/
def findAccountUser : List Char → Option (List Char)
  | [] => none
  | c :: cs =>
    if startsWithL accountMarker (c :: cs)
        && !(takeWord ((c :: cs).drop accountMarker.length)).isEmpty then
      some (takeWord ((c :: cs).drop accountMarker.length))
    else
      findAccountUser cs

/-- The single-quote character (written by code point to keep the source
free of bare quote characters). -/
def quoteChar : Char := Char.ofNat 39

/-- The literal part of the regex /Token scopes: .../ of github-auth-tool.ts
line 86, up to and including the opening single quote. -/
def scopesMarker : List Char := "Token scopes: ".toList ++ [quoteChar]

/-- First match of the scopes regex of github-auth-tool.ts line 86 (literal
marker, then one or more non-quote characters, then a closing single quote);
the capture is the run between the quotes. -/
def findScopesGroup : List Char → Option (List Char)
  | [] => none
  | c :: cs =>
    if startsWithL scopesMarker (c :: cs)
        && !((c :: cs).drop scopesMarker.length |>.takeWhile (fun ch => ch ≠ quoteChar)).isEmpty
        && startsWithL [quoteChar]
            (((c :: cs).drop scopesMarker.length).dropWhile (fun ch => ch ≠ quoteChar)) then
      some ((c :: cs).drop scopesMarker.length |>.takeWhile (fun ch => ch ≠ quoteChar))
    else
      findScopesGroup cs

/-- JavaScript split with the two-character separator comma-space, as used on
the captured scopes group (github-auth-tool.ts line 88): leftmost,
non-overlapping. -/
def splitCommaSpace : List Char → List Char → List (List Char)
  | [], acc => [acc.reverse]
  | ',' :: ' ' :: cs, acc => acc.reverse :: splitCommaSpace cs []
  | c :: cs, acc => splitCommaSpace cs (c :: acc)

/-- statusOutput.match(/account (\w+)/) as an optional captured string. -/
def extractUsername (statusOutput : String) : Option String :=
  (findAccountUser statusOutput.toList).map fun w => String.mk w

/-- The scopes regex match followed by split(", "), as an optional list. -/
def extractScopes (statusOutput : String) : Option (List String) :=
  (findScopesGroup statusOutput.toList).map fun g =>
    (splitCommaSpace g []).map fun l => String.mk l

/-- The username/scopes pair computed in the second try block of
githubAuthTool.execute when source = github-cli: if execSync "gh auth status"
throws, both stay empty; otherwise each regex that matches contributes its
capture and each regex that fails to match leaves the empty default. -/
def parseStatus : Except String String → String × List String
  | .ok statusOutput =>
      ((extractUsername statusOutput).getD "", (extractScopes statusOutput).getD [])
  | .error _ => ("", [])

/-- The error message thrown by githubAuthTool.execute (lines 52-56) and by
getGitHubToken (lines 126-130) when no token is found. -/
def noTokenMessage : String :=
  "No GitHub token found. Please either:\n" ++
  "1. Login with GitHub CLI: gh auth login (recommended), or\n" ++
  "2. Set GITHUB_TOKEN environment variable"

/-- githubAuthTool.execute (github-auth-tool.ts lines 33-107).  The first try
block: on execSync success the stdout is trimmed and source stays github-cli
(whatever the trimmed token is, even empty); on throw the environment variable
is read through the JavaScript default process.env.GITHUB_TOKEN or the empty
string, a non-empty value selects source = environment, and otherwise the
function either throws noTokenMessage (requireToken) or returns the all-empty
record with source github-cli.  The second try block contributes username and
scopes: parseStatus on the github-cli path, the sentinel "unknown" values on
the environment path. -/
def githubAuthExecute (requireToken : Bool) (w : AuthWorld) :
    Except String GitHubAuthResponse :=
  match w.cliToken with
  | .ok out =>
      .ok { token := jsTrim out
            username := (parseStatus w.cliStatus).1
            scopes := (parseStatus w.cliStatus).2
            source := .githubCli }
  | .error _ =>
      if w.envToken.getD "" ≠ "" then
        .ok { token := w.envToken.getD ""
              username := "unknown"
              scopes := ["unknown"]
              source := .environment }
      else if requireToken then
        .error noTokenMessage
      else
        .ok { token := "", username := "", scopes := [], source := .githubCli }

/-- getGitHubToken (github-auth-tool.ts lines 111-133): the token-only helper
used by fetchPrTool.execute.  On execSync success it returns the trimmed
stdout unconditionally (even when the trimmed result is empty); on throw it
returns the environment variable when non-empty and otherwise throws
noTokenMessage. -/
def getGitHubToken (cliToken : Except String String) (envToken : Option String) :
    Except String String :=
  match cliToken with
  | .ok out => .ok (jsTrim out)
  | .error _ =>
      if envToken.getD "" ≠ "" then .ok (envToken.getD "")
      else .error noTokenMessage

/-- The repository object nested in a pull request node. -/
structure RepoInfo where
  name : String
deriving DecidableEq, Repr

/-- GitHubPullRequest of fetch-pr-tool.ts: one node of the GraphQL search
result. -/
structure GitHubPullRequest where
  title : String
  url : String
  mergedAt : String
  repository : RepoInfo
deriving DecidableEq, Repr

/-- The data.search object of a well-shaped GraphQL response: the
server-reported issueCount and the node list. -/
structure SearchPayload where
  issueCount : Int
  nodes : List GitHubPullRequest
deriving DecidableEq, Repr

/-- The body of the HTTP response as consumed by fetchPrTool.execute:
response.json() either rejects (invalidJson, carrying the rejection message)
or yields a value whose optional data field has an optional search field —
parsed none models a body without data, parsed (some none) a data object
without search, and parsed (some (some p)) the well-shaped case. -/
inductive ResponseBody
  | invalidJson (msg : String)
  | parsed (dat : Option (Option SearchPayload))
deriving DecidableEq, Repr

/-- The HTTP response observed by fetchPrTool.execute. -/
structure HttpResponse where
  status : Nat
  statusText : String
  body : ResponseBody
deriving DecidableEq, Repr

/-- response.ok of the fetch API: status in the inclusive range 200-299. -/
def HttpResponse.isOk (r : HttpResponse) : Bool :=
  200 ≤ r.status && r.status ≤ 299

/-- The external world seen by fetchPrTool.execute: the two inputs of
getGitHubToken plus the outcome of the fetch call (error when the network
request itself rejects). -/
structure FetchWorld where
  cliToken : Except String String
  envToken : Option String
  response : Except String HttpResponse
deriving DecidableEq, Repr

/-- FetchPrToolResponse of fetch-pr-tool.ts. -/
structure FetchPrToolResponse where
  pullRequests : List GitHubPullRequest
  totalCount : Nat
deriving DecidableEq, Repr

/-- The message of fetch-pr-tool.ts lines 96-98 for a non-2xx status. -/
def requestFailedMessage (status : Nat) (statusText : String) : String :=
  "GitHub API request failed: " ++ toString status ++ " " ++ statusText

/-- The message of fetch-pr-tool.ts line 104 for a body without data.search. -/
def invalidShapeMessage : String :=
  "Invalid response structure from GitHub API"

/-- The catch clause of fetch-pr-tool.ts lines 113-117: every error thrown
inside the try block is re-thrown with this wrapper around the cause's
message. -/
def fetchErrorMessage (cause : String) : String :=
  "Failed to fetch pull requests: " ++ cause

/-- The try block of fetchPrTool.execute (fetch-pr-tool.ts lines 85-112): the
awaited fetch (whose rejection propagates into the catch), the response.ok
check, the body parse and shape check, and the successful extraction of the
node list with totalCount its length (the server's issueCount is discarded). -/
def fetchAttempt (response : Except String HttpResponse) :
    Except String FetchPrToolResponse :=
  match response with
  | .error e => .error e
  | .ok resp =>
    if !resp.isOk then
      .error (requestFailedMessage resp.status resp.statusText)
    else
      match resp.body with
      | .invalidJson m => .error m
      | .parsed none => .error invalidShapeMessage
      | .parsed (some none) => .error invalidShapeMessage
      | .parsed (some (some payload)) =>
          .ok { pullRequests := payload.nodes, totalCount := payload.nodes.length }

/-- fetchPrTool.execute (fetch-pr-tool.ts lines 61-118).  The author,
organization, mergedAfter and limit inputs are interpolated into the GraphQL
query string (lines 67-83), which only influences the server's reply — here an
input of the world — so they do not otherwise affect the control flow.  The
getGitHubToken call (line 65) stands BEFORE the try block: its error
propagates unwrapped.  Every error inside the try block is wrapped by the
catch clause into fetchErrorMessage. -/
def fetchPrExecute (author organization mergedAfter : String) (limit : Nat)
    (w : FetchWorld) : Except String FetchPrToolResponse :=
  match getGitHubToken w.cliToken w.envToken with
  | .error e => .error e
  | .ok _token =>
      match fetchAttempt w.response with
      | .ok r => .ok r
      | .error e => .error (fetchErrorMessage e)

/-- The substring relation used to state "the message includes / enumerates
...": the needle occurs contiguously in the haystack. -/
def ContainsSub (needle hay : String) : Prop :=
  ∃ a b : String, hay = a ++ needle ++ b

/-- Boolean string prefix test, used to characterise the messages produced by
the catch clause of fetchPrTool.execute. -/
def startsWithStr (p s : String) : Bool :=
  startsWithL p.toList s.toList

theorem startsWithL_append_self (p r : List Char) : startsWithL p (p ++ r) = true := by
  induction p with
  | nil => rfl
  | cons c cs ih => simp [startsWithL, ih]

/-- Every message produced by the catch clause of fetchPrTool.execute starts
with the FetchError wrapper prefix. -/
theorem fetchError_startsWith (cause : String) :
    startsWithStr "Failed to fetch pull requests: " (fetchErrorMessage cause) = true := by
  obtain ⟨cs⟩ := cause
  exact startsWithL_append_self "Failed to fetch pull requests: ".toList cs

/-- C1: for a successful invocation of fetchPrTool.execute — token resolution
succeeds, the HTTP response is 2xx and the parsed body holds data.search — the
result is ok, its pullRequests field is exactly the node list of the response
in the same order, and totalCount is the length of that list.  The conclusion
never mentions payload.issueCount, which is therefore unconstrained: the
server-reported match count is not used. -/
theorem c1_fetch_success (author organization mergedAfter : String) (limit : Nat)
    (w : FetchWorld) (t : String) (resp : HttpResponse) (payload : SearchPayload)
    (htok : getGitHubToken w.cliToken w.envToken = .ok t)
    (hresp : w.response = .ok resp)
    (hok : resp.isOk = true)
    (hbody : resp.body = .parsed (some (some payload))) :
    fetchPrExecute author organization mergedAfter limit w =
      .ok { pullRequests := payload.nodes, totalCount := payload.nodes.length } := by
  simp [fetchPrExecute, fetchAttempt, htok, hresp, hok, hbody]

/-- Three sample pull-request nodes for the C1 witness. -/
def prAlpha : GitHubPullRequest :=
  { title := "Fix login", url := "https://example.com/1", mergedAt := "2024-02-01",
    repository := { name := "web" } }

def prBeta : GitHubPullRequest :=
  { title := "Add report", url := "https://example.com/2", mergedAt := "2024-02-02",
    repository := { name := "api" } }

def prGamma : GitHubPullRequest :=
  { title := "Refactor auth", url := "https://example.com/3", mergedAt := "2024-02-03",
    repository := { name := "web" } }

/-- The payload of the mocked successful response of the C1 witness: three
nodes and a deliberately different server-reported issueCount of 999. -/
def c1Payload : SearchPayload :=
  { issueCount := 999, nodes := [prAlpha, prBeta, prGamma] }

def c1Response : HttpResponse :=
  { status := 200, statusText := "OK", body := .parsed (some (some c1Payload)) }

def c1WorldOk : FetchWorld :=
  { cliToken := .ok "tok", envToken := none, response := .ok c1Response }

/-- C1 witness: the mocked 200 response with three nodes yields exactly those
three records in order with totalCount = 3 (and not the issueCount 999). -/
theorem c1_fetch_success_witness :
    fetchPrExecute "alice" "Anti-Pattern-Inc" "2024-01-01" 100 c1WorldOk =
      .ok { pullRequests := [prAlpha, prBeta, prGamma], totalCount := 3 } :=
  c1_fetch_success "alice" "Anti-Pattern-Inc" "2024-01-01" 100 c1WorldOk
    "tok" c1Response c1Payload rfl rfl rfl rfl

/-- C2 counterexample: the getGitHubToken call of fetchPrTool.execute stands
before the try block, so a token-resolution failure (here the CLI throws and
GITHUB_TOKEN is unset) surfaces as the raw credential message, which is not of
the FetchError form — it does not carry the wrapper prefix that
fetchError_startsWith shows every catch-clause message carries. -/
theorem c2_counterexample :
    fetchPrExecute "alice" "Anti-Pattern-Inc" "2024-01-01" 100
      { cliToken := .error "spawn gh ENOENT", envToken := none,
        response := .ok { status := 200, statusText := "OK", body := .parsed none } } =
      .error noTokenMessage
    ∧ ¬ ∃ cause, noTokenMessage = fetchErrorMessage cause := by
  refine ⟨rfl, ?_⟩
  rintro ⟨cause, h⟩
  have hp := fetchError_startsWith cause
  rw [← h] at hp
  exact absurd hp (by decide)

/-- C2 (amended): every exception raised inside the try block of
fetchPrTool.execute — the network call, the status check, the body parse, the
shape check (steps 2-6) — is re-wrapped into the single FetchError message
derived from the cause; a failure of token resolution (step 1), however,
propagates unwrapped, since the getGitHubToken call stands before the try. -/
theorem c2_errors_wrapped (author organization mergedAfter : String) (limit : Nat)
    (w : FetchWorld) :
    (∀ t e, getGitHubToken w.cliToken w.envToken = .ok t →
        fetchAttempt w.response = .error e →
        fetchPrExecute author organization mergedAfter limit w =
          .error (fetchErrorMessage e))
    ∧ (∀ e, getGitHubToken w.cliToken w.envToken = .error e →
        fetchPrExecute author organization mergedAfter limit w = .error e) := by
  constructor
  · intro t e htok hatt
    simp [fetchPrExecute, htok, hatt]
  · intro e htok
    simp [fetchPrExecute, htok]

/-- C2 witness: a rejected network call is wrapped into the FetchError
message. -/
theorem c2_errors_wrapped_witness :
    fetchPrExecute "alice" "Anti-Pattern-Inc" "2024-01-01" 100
      { cliToken := .ok "tok", envToken := none, response := .error "network down" } =
      .error (fetchErrorMessage "network down") :=
  (c2_errors_wrapped "alice" "Anti-Pattern-Inc" "2024-01-01" 100
    { cliToken := .ok "tok", envToken := none, response := .error "network down" }).1
    "tok" "network down" rfl rfl

/-- C3 counterexample: a CLI token command that SUCCEEDS with whitespace-only
output does not trigger the environment fallback: with GITHUB_TOKEN set to
envtok the resolver still returns the empty trimmed CLI token with source
github-cli, and the token-only helper returns the empty string — neither reads
the environment variable. -/
theorem c3_counterexample :
    githubAuthExecute true
      { cliToken := .ok "   \n", envToken := some "envtok", cliStatus := .error "status failed" } =
      .ok { token := "", username := "", scopes := [], source := .githubCli }
    ∧ githubAuthExecute true
      { cliToken := .ok "   \n", envToken := some "envtok", cliStatus := .error "status failed" } ≠
      .ok { token := "envtok", username := "unknown", scopes := ["unknown"], source := .environment }
    ∧ getGitHubToken (.ok "   \n") (some "envtok") = .ok "" := by
  refine ⟨rfl, by decide, rfl⟩

/-- C3 (amended): in the code, step 1 fails only when execSync throws (command
not found or non-zero exit); a successful command with empty or
whitespace-only output keeps source github-cli (see the counterexample).  When
the command does throw and the environment variable is present and non-empty,
both the resolver and the token-only helper use it with source =
environment. -/
theorem c3_env_fallback (requireToken : Bool) (w : AuthWorld) (err v : String)
    (hcli : w.cliToken = .error err)
    (henv : w.envToken = some v) (hv : v ≠ "") :
    githubAuthExecute requireToken w =
      .ok { token := v, username := "unknown", scopes := ["unknown"], source := .environment }
    ∧ getGitHubToken w.cliToken w.envToken = .ok v := by
  constructor
  · simp [githubAuthExecute, hcli, henv, hv]
  · simp [getGitHubToken, hcli, henv, hv]

/-- C3 witness: the fallback at a concrete world. -/
theorem c3_env_fallback_witness :
    githubAuthExecute true
      { cliToken := .error "command failed: gh auth token", envToken := some "envtok",
        cliStatus := .error "status failed" } =
      .ok { token := "envtok", username := "unknown", scopes := ["unknown"], source := .environment }
    ∧ getGitHubToken (.error "command failed: gh auth token") (some "envtok") = .ok "envtok" :=
  c3_env_fallback true
    { cliToken := .error "command failed: gh auth token", envToken := some "envtok",
      cliStatus := .error "status failed" }
    "command failed: gh auth token" "envtok" rfl rfl (by decide)

/-- C4: when the CLI token command throws and GITHUB_TOKEN is unset or empty:
with requireToken = true the resolver fails with the credential message, whose
text contains both remediation paths (the CLI login command and the
environment variable name); with requireToken = false it instead returns the
record with empty token, empty username, empty scopes and source
github-cli. -/
theorem c4_no_token (w : AuthWorld) (err : String)
    (hcli : w.cliToken = .error err)
    (henv : w.envToken.getD "" = "") :
    (githubAuthExecute true w = .error noTokenMessage
      ∧ ContainsSub "gh auth login" noTokenMessage
      ∧ ContainsSub "GITHUB_TOKEN" noTokenMessage)
    ∧ githubAuthExecute false w =
        .ok { token := "", username := "", scopes := [], source := .githubCli } := by
  refine ⟨⟨?_, ?_, ?_⟩, ?_⟩
  · simp [githubAuthExecute, hcli, henv]
  · exact ⟨"No GitHub token found. Please either:\n1. Login with GitHub CLI: ",
      " (recommended), or\n2. Set GITHUB_TOKEN environment variable", by decide⟩
  · exact ⟨"No GitHub token found. Please either:\n1. Login with GitHub CLI: gh auth login (recommended), or\n2. Set ",
      " environment variable", by decide⟩
  · simp [githubAuthExecute, hcli, henv]

/-- C4 witness: the two behaviours at a concrete world with the CLI throwing
and the environment variable unset. -/
theorem c4_no_token_witness :
    (githubAuthExecute true
        { cliToken := .error "gh: command not found", envToken := none, cliStatus := .ok "x" } =
        .error noTokenMessage
      ∧ ContainsSub "gh auth login" noTokenMessage
      ∧ ContainsSub "GITHUB_TOKEN" noTokenMessage)
    ∧ githubAuthExecute false
        { cliToken := .error "gh: command not found", envToken := none, cliStatus := .ok "x" } =
        .ok { token := "", username := "", scopes := [], source := .githubCli } :=
  c4_no_token
    { cliToken := .error "gh: command not found", envToken := none, cliStatus := .ok "x" }
    "gh: command not found" rfl rfl

/-- C5: for every non-2xx response (with token resolution succeeding) the
operation fails with the error built from the response's status code and
status text inside the FetchError wrapper; when the status is 401 that message
contains the substring 401. -/
theorem c5_http_error (author organization mergedAfter : String) (limit : Nat)
    (w : FetchWorld) (t : String) (resp : HttpResponse)
    (htok : getGitHubToken w.cliToken w.envToken = .ok t)
    (hresp : w.response = .ok resp)
    (hbad : resp.isOk = false) :
    fetchPrExecute author organization mergedAfter limit w =
      .error (fetchErrorMessage (requestFailedMessage resp.status resp.statusText))
    ∧ (resp.status = 401 →
        ContainsSub "401"
          (fetchErrorMessage (requestFailedMessage resp.status resp.statusText))) := by
  constructor
  · simp [fetchPrExecute, fetchAttempt, htok, hresp, hbad]
  · intro h401
    rw [h401]
    refine ⟨"Failed to fetch pull requests: GitHub API request failed: ",
      " " ++ resp.statusText, ?_⟩
    unfold fetchErrorMessage requestFailedMessage
    have ht : toString (401 : Nat) = "401" := rfl
    rw [ht]
    simp only [← String.append_assoc]
    rfl

/-- C5 witness: a 401 Unauthorized response fails with a message carrying the
status code and text, and containing 401. -/
theorem c5_http_error_witness :
    fetchPrExecute "alice" "Anti-Pattern-Inc" "2024-01-01" 100
      { cliToken := .ok "tok", envToken := none,
        response := .ok { status := 401, statusText := "Unauthorized", body := .parsed none } } =
      .error (fetchErrorMessage (requestFailedMessage 401 "Unauthorized"))
    ∧ ContainsSub "401" (fetchErrorMessage (requestFailedMessage 401 "Unauthorized")) := by
  have h := c5_http_error "alice" "Anti-Pattern-Inc" "2024-01-01" 100
    { cliToken := .ok "tok", envToken := none,
      response := .ok { status := 401, statusText := "Unauthorized", body := .parsed none } }
    "tok" { status := 401, statusText := "Unauthorized", body := .parsed none } rfl rfl rfl
  exact ⟨h.1, h.2 rfl⟩

/-- C6: for every 2xx response whose parsed body lacks the nested data.search
structure (no data field, or a data object without a search field), the
operation fails with the invalid-structure message inside the FetchError
wrapper. -/
theorem c6_shape_error (author organization mergedAfter : String) (limit : Nat)
    (w : FetchWorld) (t : String) (resp : HttpResponse)
    (htok : getGitHubToken w.cliToken w.envToken = .ok t)
    (hresp : w.response = .ok resp)
    (hok : resp.isOk = true)
    (hbody : resp.body = .parsed none ∨ resp.body = .parsed (some none)) :
    fetchPrExecute author organization mergedAfter limit w =
      .error (fetchErrorMessage invalidShapeMessage) := by
  rcases hbody with h | h <;>
    simp [fetchPrExecute, fetchAttempt, htok, hresp, hok, h]

/-- C6 witness: a 200 response whose body has data without search fails with
the invalid-structure message. -/
theorem c6_shape_error_witness :
    fetchPrExecute "alice" "Anti-Pattern-Inc" "2024-01-01" 100
      { cliToken := .ok "tok", envToken := none,
        response := .ok { status := 200, statusText := "OK", body := .parsed (some none) } } =
      .error (fetchErrorMessage invalidShapeMessage) :=
  c6_shape_error "alice" "Anti-Pattern-Inc" "2024-01-01" 100
    { cliToken := .ok "tok", envToken := none,
      response := .ok { status := 200, statusText := "OK", body := .parsed (some none) } }
    "tok" { status := 200, statusText := "OK", body := .parsed (some none) }
    rfl rfl rfl (Or.inr rfl)

/-- C7: when the CLI token command throws and GITHUB_TOKEN is exactly envtok,
the resolved credential is token envtok, source environment, username unknown,
scopes [unknown]; and the result does not depend on the outcome of the
gh auth status command — the second CLI invocation is not consulted on this
path. -/
theorem c7_env_sentinels (requireToken : Bool) (w : AuthWorld) (err : String)
    (hcli : w.cliToken = .error err)
    (henv : w.envToken = some "envtok") :
    githubAuthExecute requireToken w =
      .ok { token := "envtok", username := "unknown", scopes := ["unknown"],
            source := .environment }
    ∧ ∀ st, githubAuthExecute requireToken { w with cliStatus := st } =
        githubAuthExecute requireToken w := by
  constructor
  · simp [githubAuthExecute, hcli, henv]
  · intro st
    simp [githubAuthExecute, hcli, henv]

/-- C7 witness: the sentinel credential at a concrete world, and independence
from one concrete alternative status outcome. -/
theorem c7_env_sentinels_witness :
    githubAuthExecute true
      { cliToken := .error "exit status 1", envToken := some "envtok",
        cliStatus := .error "not consulted" } =
      .ok { token := "envtok", username := "unknown", scopes := ["unknown"],
            source := .environment }
    ∧ githubAuthExecute true
      { cliToken := .error "exit status 1", envToken := some "envtok",
        cliStatus := .ok "account alice Token scopes: 'repo'" } =
      githubAuthExecute true
      { cliToken := .error "exit status 1", envToken := some "envtok",
        cliStatus := .error "not consulted" } :=
  ⟨(c7_env_sentinels true
      { cliToken := .error "exit status 1", envToken := some "envtok",
        cliStatus := .error "not consulted" } "exit status 1" rfl rfl).1,
   (c7_env_sentinels true
      { cliToken := .error "exit status 1", envToken := some "envtok",
        cliStatus := .error "not consulted" } "exit status 1" rfl rfl).2
     (.ok "account alice Token scopes: 'repo'")⟩

/-- C8 counterexample: a status text that contains both required fragments but
where an earlier occurrence of the account marker wins.  JavaScript
String.match returns the first match, so the extracted username is bob, not
alice, although the text contains "account alice". -/
theorem c8_counterexample :
    ContainsSub "account alice"
      "account bob says hi to account alice. Token scopes: 'repo, read:org'"
    ∧ ContainsSub "Token scopes: 'repo, read:org'"
      "account bob says hi to account alice. Token scopes: 'repo, read:org'"
    ∧ extractUsername
        "account bob says hi to account alice. Token scopes: 'repo, read:org'" = some "bob"
    ∧ extractUsername
        "account bob says hi to account alice. Token scopes: 'repo, read:org'" ≠ some "alice" := by
  refine ⟨⟨"account bob says hi to ", ". Token scopes: 'repo, read:org'", by decide⟩,
    ⟨"account bob says hi to account alice. ", "", by decide⟩, by decide, by decide⟩

/-- A canonical gh auth status output: the shown fragments are the first
occurrences of the account marker and of the quoted scopes group. -/
def ghStatusText : String :=
  "github.com\n  Logged in to github.com account alice (keyring)\n  Token scopes: 'repo, read:org'\n"

/-- C8 (amended): the username is the word following the FIRST occurrence of
the literal marker "account " and the scopes are the comma-separated items of
the FIRST single-quoted group following "Token scopes: "; on a status text
where the fragments "account alice" and "Token scopes: 'repo, read:org'" are
those first occurrences — such as the canonical ghStatusText — extraction
yields username alice and scopes [repo, read:org], and the combined parse used
by githubAuthTool.execute returns exactly that pair. -/
theorem c8_first_match_extraction :
    extractUsername ghStatusText = some "alice"
    ∧ extractScopes ghStatusText = some ["repo", "read:org"]
    ∧ parseStatus (.ok ghStatusText) = ("alice", ["repo", "read:org"]) := by
  refine ⟨by decide, by decide, by decide⟩

/-- C9: when the CLI token command succeeds with stdout "  abc123\n", the
resolved token is the trimmed "abc123" with source github-cli — whatever the
status command and the environment variable hold — in both the full resolver
(whose username and scopes come from the status parse) and the token-only
helper. -/
theorem c9_cli_trimmed (requireToken : Bool) (w : AuthWorld)
    (hcli : w.cliToken = .ok "  abc123\n") :
    githubAuthExecute requireToken w =
      .ok { token := "abc123", username := (parseStatus w.cliStatus).1,
            scopes := (parseStatus w.cliStatus).2, source := .githubCli }
    ∧ getGitHubToken w.cliToken w.envToken = .ok "abc123" := by
  have ht : jsTrim "  abc123\n" = "abc123" := by decide
  constructor
  · simp [githubAuthExecute, hcli, ht]
  · simp [getGitHubToken, hcli, ht]

/-- C9 witness: the trim at a concrete world whose status command fails, so
username and scopes are empty. -/
theorem c9_cli_trimmed_witness :
    githubAuthExecute true
      { cliToken := .ok "  abc123\n", envToken := some "ignored", cliStatus := .error "s" } =
      .ok { token := "abc123", username := "", scopes := [], source := .githubCli }
    ∧ getGitHubToken (.ok "  abc123\n") (some "ignored") = .ok "abc123" :=
  c9_cli_trimmed true
    { cliToken := .ok "  abc123\n", envToken := some "ignored", cliStatus := .error "s" } rfl

/-- C10: on the environment fallback path the resolved token is the value of
GITHUB_TOKEN verbatim — unlike the CLI path, no trim is applied — so
surrounding whitespace in the environment value is retained, in both the full
resolver and the token-only helper. -/
theorem c10_env_verbatim (requireToken : Bool) (w : AuthWorld) (err v : String)
    (hcli : w.cliToken = .error err)
    (henv : w.envToken = some v) (hv : v ≠ "") :
    (githubAuthExecute requireToken w).map GitHubAuthResponse.token = .ok v
    ∧ getGitHubToken w.cliToken w.envToken = .ok v := by
  constructor
  · simp [githubAuthExecute, hcli, henv, hv, Except.map]
  · simp [getGitHubToken, hcli, henv, hv]

/-- C10 witness: a GITHUB_TOKEN value with surrounding whitespace is returned
with that whitespace intact (the value is not a fixed point of the trim). -/
theorem c10_env_verbatim_witness :
    ((githubAuthExecute true
        { cliToken := .error "exit status 1", envToken := some "  tok\n ",
          cliStatus := .error "s" }).map GitHubAuthResponse.token = .ok "  tok\n "
      ∧ getGitHubToken (.error "exit status 1") (some "  tok\n ") = .ok "  tok\n ")
    ∧ jsTrim "  tok\n " ≠ "  tok\n " :=
  ⟨c10_env_verbatim true
      { cliToken := .error "exit status 1", envToken := some "  tok\n ",
        cliStatus := .error "s" }
      "exit status 1" "  tok\n " rfl rfl (by decide),
   by decide⟩
